/-
Verification of the envoy-exporter scrape-transform-publish pipeline.

The definitions below are a shallow embedding of `src/main.go` (the current
program; `src/unnamed/part_000` is a historical variant of the same file and
is consulted only where noted).  Go slices become `List`, Go pointers become
`Option` (with `none` for a nil pointer), Go `(value, error)` pairs become
`Option value × Option String` (the second component is the error), and
numeric telemetry values become `Int` — the program never computes with
them, it only copies them into point fields, so their exact numeric type is
irrelevant to every property proved here.  Timestamps are `Nat` (an opaque
instant; the code only ever copies one instant into every point).
-/
import Mathlib

namespace EnvoyExporter

/-! ## Data model: telemetry records (go-envoy types, as used by main.go) -/

/-- One circuit line of a production/consumption measurement
(`envoy.Line`): real, reactive and apparent power plus RMS current and
voltage, exactly the five fields `main.go` reads. -/
structure Line where
  wNow : Int
  reactPwr : Int
  apprntPwr : Int
  rmsCurrent : Int
  rmsVoltage : Int
  deriving Repr, DecidableEq

/-- Record `envoy.Measurement`: a measurement-type label and its lines. -/
structure Measurement where
  measurementType : String
  lines : List Line
  deriving Repr, DecidableEq

/-- Record `envoy.ProductionResponse`: the production and consumption measurement
lists. -/
structure ProductionResponse where
  production : List Measurement
  consumption : List Measurement
  deriving Repr, DecidableEq

/-- Record `envoy.Inverter`, restricted to the two fields `main.go` reads. -/
structure Inverter where
  serialNumber : String
  lastReportWatts : Int
  deriving Repr, DecidableEq

/-- Record `envoy.Battery`, restricted to the three fields `main.go` reads. -/
structure Battery where
  serialNum : String
  percentFull : Int
  temperature : Int
  deriving Repr, DecidableEq

/-- A device found by the liveness check; `main.go` only ever takes the
length of the returned slice, so the record content is irrelevant. -/
structure CommCheckDevice where
  serial : String
  deriving Repr, DecidableEq

/-! ## Data model: configuration (`Config` struct of main.go) -/

/-- The `Config` struct of `main.go` (the decoded YAML document). -/
structure Config where
  username : String
  password : String
  jwt : String
  address : String
  serialNumber : String
  sourceTag : String
  influxDB : String
  influxDBToken : String
  influxDBOrg : String
  influxDBBucket : String
  interval : Int
  deriving Repr, DecidableEq

/-- The post-decode part of `loadAndValidateConfig` (main.go:47-75): apply
the default interval, then check the required fields in source order.  The
file-open and YAML-decode steps that precede it are I/O and sit outside the
model; every claim about this function concerns the validation logic.
The `Config.Validate` method of `part_000` performs the identical checks. -/
def loadAndValidateConfig (cfg : Config) : Except String Config :=
  let cfg := if cfg.interval = 0 then { cfg with interval := 5 } else cfg
  if cfg.address = "" then
    .error "Missing required configuration: address"
  else if cfg.serialNumber = "" then
    .error "Missing required configuration: serial"
  else if (cfg.username = "" ∧ cfg.password = "") ∧ cfg.jwt = "" then
    .error "Missing Envoy authentication. Add username & password and optionally the JWT token"
  else if cfg.influxDB = "" then
    .error "Missing required configuration: influxdb"
  else if cfg.influxDBBucket = "" then
    .error "Missing required configuration: influxdb_bucket"
  else if cfg.influxDBToken = "" then
    .error "Missing required configuration: influxdb_token"
  else if cfg.influxDBOrg = "" then
    .error "Missing required configuration: influxdb_org"
  else
    .ok cfg

/-! ## Data model: time-series points -/

/-- An InfluxDB point as `main.go` builds it: a measurement name, the tags
and fields in the order `AddTag`/`AddField` appends them, and the timestamp
set by `SetTime`. -/
structure Point where
  measurement : String
  tags : List (String × String)
  fields : List (String × Int)
  time : Nat
  deriving Repr, DecidableEq

/-- Tag keys of a point, in insertion order. -/
def Point.tagKeys (p : Point) : List String := p.tags.map Prod.fst

/-- Field keys of a point, in insertion order. -/
def Point.fieldKeys (p : Point) : List String := p.fields.map Prod.fst

/-- Whether a point carries the tag `key=value`. -/
def Point.hasTag (p : Point) (key value : String) : Bool :=
  p.tags.contains (key, value)

/-- Number of points in the list whose `measurement-type` tag is `cat`. -/
def countCategory (cat : String) (ps : List Point) : Nat :=
  ps.countP (fun p => p.hasTag "measurement-type" cat)

/-- Total number of lines in the measurements of `ms` labeled `label` (the
count the spec compares emitted points against). -/
def totalLines (label : String) (ms : List Measurement) : Nat :=
  (ms.map (fun m => if m.measurementType = label then m.lines.length else 0)).sum

/-! ## Point builders (main.go:86-151) -/

/-- Function `lineToPoint` (main.go:86-97).  `main.go` reads the source tag from the
global `cfg`; the embedding passes that global in explicitly. -/
def lineToPoint (cfg : Config) (lineType : String) (line : Line) (idx : Nat)
    (ts : Nat) : Point :=
  { measurement := lineType ++ "-line" ++ toString idx
    tags := [("source", cfg.sourceTag), ("measurement-type", lineType),
             ("line-idx", toString idx)]
    fields := [("P", line.wNow), ("Q", line.reactPwr), ("S", line.apprntPwr),
               ("I_rms", line.rmsCurrent), ("V_rms", line.rmsVoltage)]
    time := ts }

/-- The inner `for i, line := range measure.Lines` loops of
`extractProductionStats`: one point per line, indexed from 0. -/
def linePoints (cfg : Config) (lineType : String) (lines : List Line)
    (ts : Nat) : List Point :=
  lines.enum.map (fun il => lineToPoint cfg lineType il.2 il.1 ts)

/-- Function `extractProductionStats` (main.go:99-121): scan the production
measurements keeping those labeled `production`, then the consumption
measurements, relabeling `total-consumption` as `consumption` and
`net-consumption` as `net`; each kept measurement contributes one point per
line, appended in source order. -/
def extractProductionStats (cfg : Config) (prod : ProductionResponse)
    (ts : Nat) : List Point :=
  (prod.production.map (fun m =>
      if m.measurementType = "production" then
        linePoints cfg "production" m.lines ts
      else [])).flatten
  ++ (prod.consumption.map (fun m =>
      (if m.measurementType = "total-consumption" then
        linePoints cfg "consumption" m.lines ts
      else [])
      ++ (if m.measurementType = "net-consumption" then
        linePoints cfg "net" m.lines ts
      else []))).flatten

/-- The loop body of `extractInverterStats` applied to a (non-nil) slice. -/
def inverterStatsList (cfg : Config) (inverters : List Inverter) (ts : Nat) :
    List Point :=
  inverters.map (fun inv =>
    { measurement := "inverter-production-" ++ inv.serialNumber
      tags := [("source", cfg.sourceTag), ("measurement-type", "inverter"),
               ("serial", inv.serialNumber)]
      fields := [("P", inv.lastReportWatts)]
      time := ts })

/-- Function `extractInverterStats` (main.go:123-136).  Its Go signature takes
`*[]envoy.Inverter` and immediately dereferences it
(`make(..., len(*inverters))`): a nil pointer is a run-time panic, modelled
as `none`; a non-nil pointer yields one point per entry in order. -/
def extractInverterStats (cfg : Config) (inverters : Option (List Inverter))
    (ts : Nat) : Option (List Point) :=
  match inverters with
  | none => none
  | some invs => some (inverterStatsList cfg invs ts)

/-- The loop body of `extractBatteryStats` applied to a (non-nil) slice. -/
def batteryStatsList (cfg : Config) (batteries : List Battery) (ts : Nat) :
    List Point :=
  batteries.map (fun inv =>
    { measurement := "battery-" ++ inv.serialNum
      tags := [("source", cfg.sourceTag), ("measurement-type", "battery"),
               ("serial", inv.serialNum)]
      fields := [("percent-full", inv.percentFull),
                 ("temperature", inv.temperature)]
      time := ts })

/-- Function `extractBatteryStats` (main.go:138-151).  Like `extractInverterStats`
it dereferences its pointer argument unconditionally, so a nil pointer is a
run-time panic, modelled as `none`. -/
def extractBatteryStats (cfg : Config) (batteries : Option (List Battery))
    (ts : Nat) : Option (List Point) :=
  match batteries with
  | none => none
  | some bats => some (batteryStatsList cfg bats ts)

/-! ## The scrape cycle (main.go:154-209)

`scrape` interacts with its `EnvoyClientInterface` and the sink only
through their method results, so one cycle is a pure function of those
results.  `EnvoyEnv` records, for each device-client method, the
`(pointer, error)` pair that call would return; `writeErr` is the error the
sink method `WritePoint` would return.  The embedding additionally returns the
trace of calls the cycle performs, so that claims about which methods are
(not) invoked are statable. -/

/-- The results each device-client method call would return: the Go pair
`(pointer, error)` becomes `Option result × Option String`. -/
structure EnvoyEnv where
  commCheck : Option (List CommCheckDevice) × Option String
  production : Option ProductionResponse × Option String
  inverters : Option (List Inverter) × Option String
  batteries : Option (List Battery) × Option String
  deriving Repr

/-- One observable interaction of a scrape cycle with the device client or
the sink. -/
inductive Call where
  | commCheck
  | invalidateSession
  | production
  | inverters
  | batteries
  | write (batch : List Point)
  deriving Repr, DecidableEq

/-- Whether a call is a sink write. -/
def Call.isWrite : Call → Bool
  | .write _ => true
  | _ => false

/-- What one call to `scrape` returns and does: the returned pair
`(numPoints, clientInvalidated)` plus the trace of client/sink calls. -/
structure ScrapeResult where
  numPoints : Nat
  clientInvalidated : Bool
  calls : List Call
  deriving Repr, DecidableEq

/-- The production part of the batch (main.go:170-177): points are taken
only when the pointer is non-nil **and** the `Production` measurement list
is non-empty — the fetch error alone does not discard a non-nil result. -/
def scrapeProductionPoints (cfg : Config) (env : EnvoyEnv) (ts : Nat) :
    List Point :=
  match env.production.1 with
  | some prod =>
      if 0 < prod.production.length then extractProductionStats cfg prod ts
      else []
  | none => []

/-- The inverter part of the batch (main.go:179-186): taken when the
pointer is non-nil and the slice non-empty, regardless of the error. -/
def scrapeInverterPoints (cfg : Config) (env : EnvoyEnv) (ts : Nat) :
    List Point :=
  match env.inverters.1 with
  | some invs =>
      if 0 < invs.length then
        (extractInverterStats cfg (some invs) ts).getD []
      else []
  | none => []

/-- The battery part of the batch (main.go:188-194): unlike the other two
categories, the `else if` means a fetch error discards the result even when
the pointer is non-nil. -/
def scrapeBatteryPoints (cfg : Config) (env : EnvoyEnv) (ts : Nat) :
    List Point :=
  if (env.batteries.2).isSome then []
  else
    match env.batteries.1 with
    | some bats =>
        if 0 < bats.length then
          (extractBatteryStats cfg (some bats) ts).getD []
        else []
    | none => []

/-- The full batch a scrape cycle builds (the successive `append`s of
main.go:168-194): production points, then inverter points, then battery
points. -/
def scrapeBuiltPoints (cfg : Config) (env : EnvoyEnv) (ts : Nat) :
    List Point :=
  scrapeProductionPoints cfg env ts ++ scrapeInverterPoints cfg env ts
    ++ scrapeBatteryPoints cfg env ts

/-- Function `scrape` (main.go:154-209).  A failed `CommCheck` invalidates the
session and returns `(0, true)` before any fetch; otherwise the three
categories are fetched, the batch is built with the `scrapeTime` argument
as the timestamp of every point, and a non-empty batch is written to the sink in
one call whose error does not affect the returned values. -/
def scrape (cfg : Config) (env : EnvoyEnv) (writeErr : Option String)
    (ts : Nat) : ScrapeResult :=
  if (env.commCheck.2).isSome then
    { numPoints := 0, clientInvalidated := true
      calls := [Call.commCheck, Call.invalidateSession] }
  else
    let points := scrapeBuiltPoints cfg env ts
    let fetchCalls :=
      [Call.commCheck, Call.production, Call.inverters, Call.batteries]
    if points.length = 0 then
      { numPoints := 0, clientInvalidated := false, calls := fetchCalls }
    else
      -- `influxWriter.WritePoint` is called once; its error (`writeErr`)
      -- is logged and otherwise ignored (main.go:203-208).
      let _ := writeErr
      { numPoints := points.length, clientInvalidated := false
        calls := fetchCalls ++ [Call.write points] }

/-! ## One iteration of the scrape loop (main.go:211-259)

The body of the `for` loop in `scrapeLoop` is a pure function of the current
connection flag and of what the environment does this iteration (whether
`envoy.NewClient` succeeds, what `scrape` reports, how long it took).
Durations are nanoseconds (the unit of `time.Duration`), as `Int`. -/

/-- What the environment does during one iteration of the loop body. -/
structure LoopIterEnv where
  /-- Whether `envoy.NewClient` succeeds, when a connection is attempted. -/
  constructOk : Bool
  /-- The `clientInvalidated` flag `scrape` returns, when a scrape runs. -/
  scrapeInvalidated : Bool
  /-- Value of `time.Since(tStat)` for the scrape, in nanoseconds. -/
  scrapeDuration : Int
  deriving Repr

/-- One `time.Second` in nanoseconds. -/
def nsPerSecond : Int := 1000000000

/-- The `interval := time.Duration(cfg.Interval) * time.Second` computation
(main.go:216). -/
def intervalOf (cfg : Config) : Int := cfg.interval * nsPerSecond

/-- One pass through the `for` body of `scrapeLoop` (main.go:218-258), returning
the connection flag for the next iteration and how long this pass sleeps
(nanoseconds): a failed construction sleeps the configured `interval` and
retries; an invalidated session sleeps one second and reconnects; otherwise
the loop sleeps the remainder of the interval, or nothing when the scrape
overran it. -/
def scrapeLoopIter (cfg : Config) (connected : Bool) (env : LoopIterEnv) :
    Bool × Int :=
  if ¬connected ∧ ¬env.constructOk then
    (false, intervalOf cfg)
  else if env.scrapeInvalidated then
    (false, 1 * nsPerSecond)
  else
    let timeToSleep := intervalOf cfg - env.scrapeDuration
    (true, if 0 < timeToSleep then timeToSleep else 0)

/-! ## Claim-side predicate and concrete data

`claimValidConfig` follows the words of the configuration claim (address,
serial and all four sink parameters non-empty, plus one complete
authentication method: the username+password pair together, or a token).
It exists only to be compared against `loadAndValidateConfig`; everything
else in this file is translated from the source.  The concrete records
below mirror the fixtures of `main_test.go`. -/

/-- The configuration-validity predicate exactly as the claim words it;
compare with `loadAndValidateConfig`, which accepts a username without a
password. -/
def claimValidConfig (c : Config) : Bool :=
  c.address != "" && c.serialNumber != "" &&
  c.influxDB != "" && c.influxDBToken != "" &&
  c.influxDBOrg != "" && c.influxDBBucket != "" &&
  ((c.username != "" && c.password != "") || c.jwt != "")

/-- A complete, valid configuration (the fixtures of `main_test.go`). -/
def sampleConfig : Config :=
  { username := "user", password := "pass", jwt := ""
    address := "http://localhost", serialNumber := "12345"
    sourceTag := "test-source", influxDB := "http://influx"
    influxDBToken := "token", influxDBOrg := "org"
    influxDBBucket := "bucket", interval := 5 }

/-- `sampleConfig` with a 10-second scrape interval. -/
def intervalTenConfig : Config := { sampleConfig with interval := 10 }

/-- `sampleConfig` with only a username: no password and no JWT. -/
def usernameOnlyConfig : Config :=
  { sampleConfig with username := "user", password := "", jwt := "" }

/-- The environment of the `main_test.go` success case: one production
line, one inverter, one battery. -/
def sampleEnv : EnvoyEnv :=
  { commCheck := (some [⟨"device"⟩], none)
    production := (some ⟨[⟨"production", [⟨100, 0, 0, 0, 0⟩]⟩], []⟩, none)
    inverters := (some [⟨"inv1", 50⟩], none)
    batteries := (some [⟨"bat1", 75, 20⟩], none) }

/-- An environment whose liveness check fails (the `CommCheck Failure`
case of `main_test.go`). -/
def commFailEnv : EnvoyEnv :=
  { commCheck := (none, some "CommCheck error")
    production := (some ⟨[⟨"production", [⟨100, 0, 0, 0, 0⟩]⟩], []⟩, none)
    inverters := (some [⟨"inv1", 50⟩], none)
    batteries := (some [⟨"bat1", 75, 20⟩], none) }

/-- An environment where the liveness check succeeds and every category
comes back empty. -/
def emptyEnv : EnvoyEnv :=
  { commCheck := (some [], none)
    production := (some ⟨[], []⟩, none)
    inverters := (some [], none)
    batteries := (some [], none) }

/-- A production response whose production list is empty while its
consumption list holds one total-consumption line. -/
def consumptionOnlyResponse : ProductionResponse :=
  ⟨[], [⟨"total-consumption", [⟨200, 20, 202, 2, 231⟩]⟩]⟩

/-- An environment that returns `consumptionOnlyResponse` and nothing
else. -/
def consumptionOnlyEnv : EnvoyEnv :=
  { commCheck := (some [], none)
    production := (some consumptionOnlyResponse, none)
    inverters := (none, none)
    batteries := (none, none) }

/-- A production response with one production line, one total-consumption
line and one net-consumption line. -/
def fullResponse : ProductionResponse :=
  ⟨[⟨"production", [⟨100, 10, 101, 1, 230⟩]⟩],
    [⟨"total-consumption", [⟨200, 20, 202, 2, 231⟩]⟩,
     ⟨"net-consumption", [⟨-100, -10, -101, -1, 230⟩]⟩]⟩

/-- An environment that returns `fullResponse` together with one inverter
and one battery. -/
def fullEnv : EnvoyEnv :=
  { commCheck := (some [⟨"device"⟩], none)
    production := (some fullResponse, none)
    inverters := (some [⟨"inv1", 50⟩], none)
    batteries := (some [⟨"bat1", 75, 20⟩], none) }

/-! ## Helper lemmas: counting points by category

`countCategory` distributes over the structure of the batch; a line point
counts toward exactly its line type, and inverter/battery points count
toward no line category. -/

theorem hasTag_lineToPoint (cfg : Config) (c t : String) (line : Line)
    (idx ts : Nat) :
    (lineToPoint cfg t line idx ts).hasTag "measurement-type" c
      = decide (c = t) := by
  by_cases h : c = t <;>
    simp [lineToPoint, Point.hasTag, List.contains, instBEqProd, h]

theorem countCategory_nil (c : String) : countCategory c [] = 0 := rfl

theorem countCategory_linePoints (cfg : Config) (c t : String)
    (lines : List Line) (ts : Nat) :
    countCategory c (linePoints cfg t lines ts)
      = if c = t then lines.length else 0 := by
  unfold countCategory linePoints
  rw [List.countP_map]
  by_cases h : c = t <;>
    simp [Function.comp_def, hasTag_lineToPoint, h]

theorem countCategory_append (c : String) (l1 l2 : List Point) :
    countCategory c (l1 ++ l2) = countCategory c l1 + countCategory c l2 :=
  List.countP_append _ _ _

theorem countCategory_prodPart (cfg : Config) (c : String)
    (hc : c ≠ "production") (ms : List Measurement) (ts : Nat) :
    countCategory c ((ms.map (fun m =>
      if m.measurementType = "production" then
        linePoints cfg "production" m.lines ts
      else [])).flatten) = 0 := by
  induction ms with
  | nil => rfl
  | cons m rest ih =>
    rw [List.map_cons, List.flatten_cons, countCategory_append, ih,
      Nat.add_zero]
    by_cases h : m.measurementType = "production"
    · rw [if_pos h, countCategory_linePoints, if_neg hc]
    · rw [if_neg h, countCategory_nil]

theorem countCategory_consPart_consumption (cfg : Config)
    (ms : List Measurement) (ts : Nat) :
    countCategory "consumption" ((ms.map (fun m =>
      (if m.measurementType = "total-consumption" then
        linePoints cfg "consumption" m.lines ts
      else [])
      ++ (if m.measurementType = "net-consumption" then
        linePoints cfg "net" m.lines ts
      else []))).flatten) = totalLines "total-consumption" ms := by
  induction ms with
  | nil => rfl
  | cons m rest ih =>
    rw [List.map_cons, List.flatten_cons, countCategory_append,
      countCategory_append, ih]
    simp only [totalLines, List.map_cons, List.sum_cons]
    by_cases h1 : m.measurementType = "total-consumption"
    · rw [if_pos h1, countCategory_linePoints, if_pos rfl]
      by_cases h2 : m.measurementType = "net-consumption"
      · exact absurd (h1.symm.trans h2) (by decide)
      · rw [if_neg h2, countCategory_nil, Nat.add_zero, if_pos h1]
    · rw [if_neg h1, countCategory_nil]
      by_cases h2 : m.measurementType = "net-consumption"
      · rw [if_pos h2, countCategory_linePoints, if_neg (by decide),
          Nat.add_zero, Nat.zero_add, if_neg h1, Nat.zero_add]
      · rw [if_neg h2, countCategory_nil, Nat.add_zero, Nat.zero_add,
          if_neg h1, Nat.zero_add]

theorem countCategory_consPart_net (cfg : Config)
    (ms : List Measurement) (ts : Nat) :
    countCategory "net" ((ms.map (fun m =>
      (if m.measurementType = "total-consumption" then
        linePoints cfg "consumption" m.lines ts
      else [])
      ++ (if m.measurementType = "net-consumption" then
        linePoints cfg "net" m.lines ts
      else []))).flatten) = totalLines "net-consumption" ms := by
  induction ms with
  | nil => rfl
  | cons m rest ih =>
    rw [List.map_cons, List.flatten_cons, countCategory_append,
      countCategory_append, ih]
    simp only [totalLines, List.map_cons, List.sum_cons]
    by_cases h2 : m.measurementType = "net-consumption"
    · rw [if_pos h2, countCategory_linePoints, if_pos rfl]
      by_cases h1 : m.measurementType = "total-consumption"
      · exact absurd (h1.symm.trans h2) (by decide)
      · rw [if_neg h1, countCategory_nil, Nat.zero_add, if_pos h2]
    · rw [if_neg h2, countCategory_nil, Nat.add_zero]
      by_cases h1 : m.measurementType = "total-consumption"
      · rw [if_pos h1, countCategory_linePoints, if_neg (by decide),
          Nat.zero_add, if_neg h2, Nat.zero_add]
      · rw [if_neg h1, countCategory_nil, Nat.zero_add, if_neg h2,
          Nat.zero_add]

theorem countCategory_extract_consumption (cfg : Config)
    (prod : ProductionResponse) (ts : Nat) :
    countCategory "consumption" (extractProductionStats cfg prod ts)
      = totalLines "total-consumption" prod.consumption := by
  unfold extractProductionStats
  rw [countCategory_append, countCategory_prodPart cfg _ (by decide),
    countCategory_consPart_consumption, Nat.zero_add]

theorem countCategory_extract_net (cfg : Config)
    (prod : ProductionResponse) (ts : Nat) :
    countCategory "net" (extractProductionStats cfg prod ts)
      = totalLines "net-consumption" prod.consumption := by
  unfold extractProductionStats
  rw [countCategory_append, countCategory_prodPart cfg _ (by decide),
    countCategory_consPart_net, Nat.zero_add]

theorem countCategory_inverterStatsList (cfg : Config) (c : String)
    (hc : c ≠ "inverter") (invs : List Inverter) (ts : Nat) :
    countCategory c (inverterStatsList cfg invs ts) = 0 := by
  unfold countCategory inverterStatsList
  rw [List.countP_map]
  simp [Function.comp_def, Point.hasTag, List.contains, instBEqProd, hc]

theorem countCategory_batteryStatsList (cfg : Config) (c : String)
    (hc : c ≠ "battery") (bats : List Battery) (ts : Nat) :
    countCategory c (batteryStatsList cfg bats ts) = 0 := by
  unfold countCategory batteryStatsList
  rw [List.countP_map]
  simp [Function.comp_def, Point.hasTag, List.contains, instBEqProd, hc]

theorem countCategory_scrapeInverterPoints (cfg : Config) (c : String)
    (hc : c ≠ "inverter") (env : EnvoyEnv) (ts : Nat) :
    countCategory c (scrapeInverterPoints cfg env ts) = 0 := by
  unfold scrapeInverterPoints
  cases h : env.inverters.1 with
  | none => rfl
  | some invs =>
    dsimp only
    by_cases hl : 0 < invs.length
    · rw [if_pos hl]
      exact countCategory_inverterStatsList cfg c hc invs ts
    · rw [if_neg hl, countCategory_nil]

theorem countCategory_scrapeBatteryPoints (cfg : Config) (c : String)
    (hc : c ≠ "battery") (env : EnvoyEnv) (ts : Nat) :
    countCategory c (scrapeBatteryPoints cfg env ts) = 0 := by
  unfold scrapeBatteryPoints
  by_cases he : (env.batteries.2).isSome
  · rw [if_pos he, countCategory_nil]
  · rw [if_neg he]
    cases h : env.batteries.1 with
    | none => rfl
    | some bats =>
      dsimp only
      by_cases hl : 0 < bats.length
      · rw [if_pos hl]
        exact countCategory_batteryStatsList cfg c hc bats ts
      · rw [if_neg hl, countCategory_nil]

/-! ## Helper lemmas: timestamps and tag shapes -/

theorem time_linePoints (cfg : Config) (t : String) (lines : List Line)
    (ts : Nat) : ∀ p ∈ linePoints cfg t lines ts, p.time = ts := by
  intro p hp
  simp only [linePoints, List.mem_map] at hp
  obtain ⟨il, -, rfl⟩ := hp
  rfl

theorem time_extractProductionStats (cfg : Config)
    (prod : ProductionResponse) (ts : Nat) :
    ∀ p ∈ extractProductionStats cfg prod ts, p.time = ts := by
  intro p hp
  simp only [extractProductionStats, List.mem_append, List.mem_flatten,
    List.mem_map] at hp
  rcases hp with ⟨l, ⟨m, hm, rfl⟩, hpl⟩ | ⟨l, ⟨m, hm, rfl⟩, hpl⟩
  · by_cases h : m.measurementType = "production"
    · rw [if_pos h] at hpl
      exact time_linePoints cfg _ _ ts p hpl
    · rw [if_neg h] at hpl
      exact absurd hpl (List.not_mem_nil p)
  · rcases List.mem_append.mp hpl with hp1 | hp2
    · by_cases h : m.measurementType = "total-consumption"
      · rw [if_pos h] at hp1
        exact time_linePoints cfg _ _ ts p hp1
      · rw [if_neg h] at hp1
        exact absurd hp1 (List.not_mem_nil p)
    · by_cases h : m.measurementType = "net-consumption"
      · rw [if_pos h] at hp2
        exact time_linePoints cfg _ _ ts p hp2
      · rw [if_neg h] at hp2
        exact absurd hp2 (List.not_mem_nil p)

theorem time_scrapeBuiltPoints (cfg : Config) (env : EnvoyEnv) (ts : Nat) :
    ∀ p ∈ scrapeBuiltPoints cfg env ts, p.time = ts := by
  intro p hp
  simp only [scrapeBuiltPoints, List.mem_append] at hp
  rcases hp with (hp | hp) | hp
  · unfold scrapeProductionPoints at hp
    rcases hprod : env.production.1 with - | prod
    · rw [hprod] at hp
      exact absurd hp (List.not_mem_nil p)
    · rw [hprod] at hp
      dsimp only at hp
      by_cases hl : 0 < prod.production.length
      · rw [if_pos hl] at hp
        exact time_extractProductionStats cfg prod ts p hp
      · rw [if_neg hl] at hp
        exact absurd hp (List.not_mem_nil p)
  · unfold scrapeInverterPoints at hp
    rcases hinv : env.inverters.1 with - | invs
    · rw [hinv] at hp
      exact absurd hp (List.not_mem_nil p)
    · rw [hinv] at hp
      dsimp only at hp
      by_cases hl : 0 < invs.length
      · rw [if_pos hl] at hp
        simp only [extractInverterStats, Option.getD_some,
          inverterStatsList, List.mem_map] at hp
        obtain ⟨inv, -, rfl⟩ := hp
        rfl
      · rw [if_neg hl] at hp
        exact absurd hp (List.not_mem_nil p)
  · unfold scrapeBatteryPoints at hp
    by_cases he : (env.batteries.2).isSome
    · rw [if_pos he] at hp
      exact absurd hp (List.not_mem_nil p)
    · rw [if_neg he] at hp
      rcases hbat : env.batteries.1 with - | bats
      · rw [hbat] at hp
        exact absurd hp (List.not_mem_nil p)
      · rw [hbat] at hp
        dsimp only at hp
        by_cases hl : 0 < bats.length
        · rw [if_pos hl] at hp
          simp only [extractBatteryStats, Option.getD_some,
            batteryStatsList, List.mem_map] at hp
          obtain ⟨bat, -, rfl⟩ := hp
          rfl
        · rw [if_neg hl] at hp
          exact absurd hp (List.not_mem_nil p)

theorem tags_extractProductionStats (cfg : Config)
    (prod : ProductionResponse) (ts : Nat) :
    (extractProductionStats cfg prod ts).all (fun p =>
      p.tagKeys == ["source", "measurement-type", "line-idx"]
      && p.fieldKeys == ["P", "Q", "S", "I_rms", "V_rms"]) = true := by
  rw [List.all_eq_true]
  intro p hp
  simp only [extractProductionStats, List.mem_append, List.mem_flatten,
    List.mem_map] at hp
  have hline : ∀ t lines, p ∈ linePoints cfg t lines ts →
      (p.tagKeys == ["source", "measurement-type", "line-idx"]
        && p.fieldKeys == ["P", "Q", "S", "I_rms", "V_rms"]) = true := by
    intro t lines hpl
    simp only [linePoints, List.mem_map] at hpl
    obtain ⟨il, -, rfl⟩ := hpl
    rfl
  rcases hp with ⟨l, ⟨m, hm, rfl⟩, hpl⟩ | ⟨l, ⟨m, hm, rfl⟩, hpl⟩
  · by_cases h : m.measurementType = "production"
    · rw [if_pos h] at hpl
      exact hline _ _ hpl
    · rw [if_neg h] at hpl
      exact absurd hpl (List.not_mem_nil p)
  · rcases List.mem_append.mp hpl with hp1 | hp2
    · by_cases h : m.measurementType = "total-consumption"
      · rw [if_pos h] at hp1
        exact hline _ _ hp1
      · rw [if_neg h] at hp1
        exact absurd hp1 (List.not_mem_nil p)
    · by_cases h : m.measurementType = "net-consumption"
      · rw [if_pos h] at hp2
        exact hline _ _ hp2
      · rw [if_neg h] at hp2
        exact absurd hp2 (List.not_mem_nil p)

theorem lineCategory_extractProductionStats (cfg : Config)
    (prod : ProductionResponse) (ts : Nat) :
    (extractProductionStats cfg prod ts).all (fun p =>
      p.hasTag "measurement-type" "production"
      || p.hasTag "measurement-type" "consumption"
      || p.hasTag "measurement-type" "net") = true := by
  rw [List.all_eq_true]
  intro p hp
  simp only [extractProductionStats, List.mem_append, List.mem_flatten,
    List.mem_map] at hp
  have hline : ∀ t lines, p ∈ linePoints cfg t lines ts →
      p.hasTag "measurement-type" t = true := by
    intro t lines hpl
    simp only [linePoints, List.mem_map] at hpl
    obtain ⟨il, -, rfl⟩ := hpl
    rw [hasTag_lineToPoint]
    simp
  rcases hp with ⟨l, ⟨m, hm, rfl⟩, hpl⟩ | ⟨l, ⟨m, hm, rfl⟩, hpl⟩
  · by_cases h : m.measurementType = "production"
    · rw [if_pos h] at hpl
      simp [hline "production" _ hpl]
    · rw [if_neg h] at hpl
      exact absurd hpl (List.not_mem_nil p)
  · rcases List.mem_append.mp hpl with hp1 | hp2
    · by_cases h : m.measurementType = "total-consumption"
      · rw [if_pos h] at hp1
        simp [hline "consumption" _ hp1]
      · rw [if_neg h] at hp1
        exact absurd hp1 (List.not_mem_nil p)
    · by_cases h : m.measurementType = "net-consumption"
      · rw [if_pos h] at hp2
        simp [hline "net" _ hp2]
      · rw [if_neg h] at hp2
        exact absurd hp2 (List.not_mem_nil p)

theorem lineCategory_scrapeProductionPoints (cfg : Config) (env : EnvoyEnv)
    (ts : Nat) :
    (scrapeProductionPoints cfg env ts).all (fun p =>
      p.hasTag "measurement-type" "production"
      || p.hasTag "measurement-type" "consumption"
      || p.hasTag "measurement-type" "net") = true := by
  unfold scrapeProductionPoints
  rcases env.production.1 with - | prod
  · rfl
  · dsimp only
    by_cases hl : 0 < prod.production.length
    · rw [if_pos hl]
      exact lineCategory_extractProductionStats cfg prod ts
    · rw [if_neg hl]
      rfl

theorem inverterCategory_scrapeInverterPoints (cfg : Config)
    (env : EnvoyEnv) (ts : Nat) :
    (scrapeInverterPoints cfg env ts).all (fun p =>
      p.hasTag "measurement-type" "inverter") = true := by
  unfold scrapeInverterPoints
  rcases env.inverters.1 with - | invs
  · rfl
  · dsimp only
    by_cases hl : 0 < invs.length
    · rw [if_pos hl]
      rw [List.all_eq_true]
      intro p hp
      simp only [extractInverterStats, Option.getD_some, inverterStatsList,
        List.mem_map] at hp
      obtain ⟨inv, -, rfl⟩ := hp
      simp [Point.hasTag, List.contains, instBEqProd]
    · rw [if_neg hl]
      rfl

theorem batteryCategory_scrapeBatteryPoints (cfg : Config) (env : EnvoyEnv)
    (ts : Nat) :
    (scrapeBatteryPoints cfg env ts).all (fun p =>
      p.hasTag "measurement-type" "battery") = true := by
  unfold scrapeBatteryPoints
  by_cases he : (env.batteries.2).isSome
  · rw [if_pos he]
    rfl
  · rw [if_neg he]
    rcases env.batteries.1 with - | bats
    · rfl
    · dsimp only
      by_cases hl : 0 < bats.length
      · rw [if_pos hl]
        rw [List.all_eq_true]
        intro p hp
        simp only [extractBatteryStats, Option.getD_some, batteryStatsList,
          List.mem_map] at hp
        obtain ⟨bat, -, rfl⟩ := hp
        simp [Point.hasTag, List.contains, instBEqProd]
      · rw [if_neg hl]
        rfl

/-! ## The claims -/

/-- C1: a scrape cycle whose liveness check (CommCheck) errors returns the
pair `(0, true)`, invalidates the client session exactly once, and never
invokes the production, inverter or battery fetchers nor the sink write. -/
theorem scrape_livenessFailure (cfg : Config) (env : EnvoyEnv)
    (writeErr : Option String) (ts : Nat)
    (h : (env.commCheck.2).isSome = true) :
    scrape cfg env writeErr ts =
      { numPoints := 0, clientInvalidated := true
        calls := [Call.commCheck, Call.invalidateSession] }
    ∧ (scrape cfg env writeErr ts).calls.count Call.invalidateSession = 1
    ∧ Call.production ∉ (scrape cfg env writeErr ts).calls
    ∧ Call.inverters ∉ (scrape cfg env writeErr ts).calls
    ∧ Call.batteries ∉ (scrape cfg env writeErr ts).calls
    ∧ ∀ b, Call.write b ∉ (scrape cfg env writeErr ts).calls := by
  have he : scrape cfg env writeErr ts =
      { numPoints := 0, clientInvalidated := true
        calls := [Call.commCheck, Call.invalidateSession] } := by
    unfold scrape
    rw [if_pos h]
  refine ⟨he, ?_, ?_, ?_, ?_, ?_⟩ <;> rw [he]
  · decide
  · decide
  · decide
  · decide
  · intro b
    simp

/-- C1 witness: the failing-liveness environment of `main_test.go`,
evaluated concretely. -/
theorem scrape_livenessFailure_witness :
    (commFailEnv.commCheck.2).isSome = true
    ∧ (scrape sampleConfig commFailEnv none 0 =
        { numPoints := 0, clientInvalidated := true
          calls := [Call.commCheck, Call.invalidateSession] }
      ∧ (scrape sampleConfig commFailEnv none 0).calls.count
          Call.invalidateSession = 1
      ∧ Call.production ∉ (scrape sampleConfig commFailEnv none 0).calls
      ∧ Call.inverters ∉ (scrape sampleConfig commFailEnv none 0).calls
      ∧ Call.batteries ∉ (scrape sampleConfig commFailEnv none 0).calls
      ∧ ∀ b, Call.write b ∉ (scrape sampleConfig commFailEnv none 0).calls) :=
  ⟨rfl, scrape_livenessFailure sampleConfig commFailEnv none 0 rfl⟩

/-- C2 counterexample: with an empty production measurement list and one
total-consumption line, a scrape cycle emits zero consumption points even
though one line is labeled total-consumption, because main.go:175 guards
the whole extraction with `len(prod.Production) > 0`.  The claimed count
equality fails at this input. -/
theorem scrape_consumptionCount_counterexample :
    totalLines "total-consumption" consumptionOnlyResponse.consumption = 1
    ∧ countCategory "consumption"
        (scrapeBuiltPoints sampleConfig consumptionOnlyEnv 0) = 0
    ∧ (scrape sampleConfig consumptionOnlyEnv none 0).numPoints = 0
    ∧ countCategory "consumption"
        (scrapeBuiltPoints sampleConfig consumptionOnlyEnv 0)
      ≠ totalLines "total-consumption" consumptionOnlyResponse.consumption := by
  refine ⟨rfl, ?_, ?_, ?_⟩ <;> decide

/-- C2 amended: provided the production measurement list is non-empty (the
guard of main.go:175), the number of consumption points in the batch of a
scrape cycle equals the number of lines labeled total-consumption, and the
number of net points equals the number of lines labeled net-consumption,
independently of everything else in the environment. -/
theorem scrape_consumption_net_counts (cfg : Config) (env : EnvoyEnv)
    (ts : Nat) (prod : ProductionResponse)
    (hp : env.production.1 = some prod)
    (hnonempty : 0 < prod.production.length) :
    countCategory "consumption" (scrapeBuiltPoints cfg env ts)
      = totalLines "total-consumption" prod.consumption
    ∧ countCategory "net" (scrapeBuiltPoints cfg env ts)
      = totalLines "net-consumption" prod.consumption := by
  unfold scrapeBuiltPoints
  rw [countCategory_append, countCategory_append,
    countCategory_scrapeInverterPoints cfg _ (by decide) env ts,
    countCategory_scrapeBatteryPoints cfg _ (by decide) env ts,
    countCategory_append, countCategory_append,
    countCategory_scrapeInverterPoints cfg _ (by decide) env ts,
    countCategory_scrapeBatteryPoints cfg _ (by decide) env ts]
  unfold scrapeProductionPoints
  rw [hp]
  dsimp only
  rw [if_pos hnonempty, countCategory_extract_consumption,
    countCategory_extract_net]
  omega

/-- C2 witness: a response with one production, one total-consumption and
one net-consumption line, evaluated concretely. -/
theorem scrape_consumption_net_counts_witness :
    fullEnv.production.1 = some fullResponse
    ∧ 0 < fullResponse.production.length
    ∧ (countCategory "consumption"
          (scrapeBuiltPoints sampleConfig fullEnv 0)
        = totalLines "total-consumption" fullResponse.consumption
      ∧ countCategory "net" (scrapeBuiltPoints sampleConfig fullEnv 0)
        = totalLines "net-consumption" fullResponse.consumption) :=
  ⟨rfl, by decide,
    scrape_consumption_net_counts sampleConfig fullEnv 0 fullResponse rfl
      (by decide)⟩

/-- C3 counterexample: with a configured interval of 10 seconds — a
configuration that validation accepts unchanged — a failed device-client
construction makes the loop sleep 10 seconds (main.go:230 sleeps
`interval`), not the fixed 5 seconds the claim states. -/
theorem scrapeLoop_backoff_counterexample :
    loadAndValidateConfig intervalTenConfig = .ok intervalTenConfig
    ∧ scrapeLoopIter intervalTenConfig false
        { constructOk := false, scrapeInvalidated := false,
          scrapeDuration := 0 }
      = (false, 10 * nsPerSecond)
    ∧ (10 * nsPerSecond : Int) ≠ 5 * nsPerSecond := by
  refine ⟨rfl, ?_, by decide⟩
  decide

/-- C3 amended: when device-client construction fails, the loop waits the
configured scrape interval before the next attempt (which is 5 seconds only
when the interval has its default value 5). -/
theorem scrapeLoop_backoff_amended (cfg : Config) (env : LoopIterEnv)
    (h : env.constructOk = false) :
    scrapeLoopIter cfg false env = (false, intervalOf cfg) := by
  unfold scrapeLoopIter
  rw [if_pos]
  exact ⟨by simp, by simp [h]⟩

/-- C3 witness: the amended backoff at the 10-second configuration. -/
theorem scrapeLoop_backoff_amended_witness :
    ({ constructOk := false, scrapeInvalidated := false,
       scrapeDuration := 0 } : LoopIterEnv).constructOk = false
    ∧ scrapeLoopIter intervalTenConfig false
        { constructOk := false, scrapeInvalidated := false,
          scrapeDuration := 0 }
      = (false, intervalOf intervalTenConfig) :=
  ⟨rfl, scrapeLoop_backoff_amended intervalTenConfig _ rfl⟩

/-- C4: every point of the batch built by one scrape cycle carries the one
timestamp handed to `scrape` (sampled once by `scrapeLoop` before the
cycle, main.go:237-239), so any two points of one batch compare equal in
time. -/
theorem scrape_batch_single_timestamp (cfg : Config) (env : EnvoyEnv)
    (ts : Nat) :
    ((scrapeBuiltPoints cfg env ts).all (fun p => p.time == ts) = true)
    ∧ ((scrapeBuiltPoints cfg env ts).all (fun p =>
        (scrapeBuiltPoints cfg env ts).all (fun q => p.time == q.time))
      = true) := by
  constructor
  · rw [List.all_eq_true]
    intro p hp
    exact beq_iff_eq.mpr (time_scrapeBuiltPoints cfg env ts p hp)
  · rw [List.all_eq_true]
    intro p hp
    rw [List.all_eq_true]
    intro q hq
    rw [time_scrapeBuiltPoints cfg env ts p hp,
      time_scrapeBuiltPoints cfg env ts q hq]
    exact beq_iff_eq.mpr rfl

/-- C5: the claim (and the Nil-input cases of `main_test.go`) say the
inverter and battery builders are total on nil input and return an empty
sequence; the code instead dereferences the nil pointer
(`len(*inverters)`, main.go:124 and main.go:139) and panics, modelled here
as `none`.  Empty (non-nil) input does yield the empty sequence. -/
theorem extract_nilPointer (cfg : Config) (ts : Nat) :
    extractInverterStats cfg none ts = none
    ∧ extractBatteryStats cfg none ts = none
    ∧ extractInverterStats cfg (some []) ts = some []
    ∧ extractBatteryStats cfg (some []) ts = some [] :=
  ⟨rfl, rfl, rfl, rfl⟩

/-- C6 counterexample: a configuration with a username but neither a
password nor a token is accepted by `loadAndValidateConfig` (main.go:59
only rejects when username and password are both empty and there is no
JWT), yet it has no complete authentication method in the sense of the
claim. -/
theorem validateConfig_counterexample :
    (loadAndValidateConfig usernameOnlyConfig).isOk = true
    ∧ claimValidConfig usernameOnlyConfig = false := by
  refine ⟨?_, ?_⟩ <;> decide

/-- C6 amended: validation succeeds exactly when address, serial and the
four sink parameters are non-empty and at least one of username, password
or the JWT token is non-empty — the username+password pair need not be
complete. -/
theorem validateConfig_ok_characterization (c : Config) :
    (loadAndValidateConfig c).isOk
      = (c.address != "" && c.serialNumber != ""
        && (c.username != "" || c.password != "" || c.jwt != "")
        && c.influxDB != "" && c.influxDBBucket != ""
        && c.influxDBToken != "" && c.influxDBOrg != "") := by
  unfold loadAndValidateConfig
  by_cases hi : c.interval = 0 <;>
    simp only [hi, if_true, if_false, reduceIte] <;>
    split_ifs with h1 h2 h3 h4 h5 h6 h7 <;>
    by_cases hu : c.username = "" <;> by_cases hpw : c.password = "" <;>
    simp_all [Except.isOk, Except.toBool, bne, not_and_or,
      beq_eq_false_iff_ne]

/-- C7: a scrape cycle whose liveness check succeeds but whose batch comes
out empty returns `(0, false)` and performs no sink write. -/
theorem scrape_emptyBatch (cfg : Config) (env : EnvoyEnv)
    (writeErr : Option String) (ts : Nat)
    (h1 : env.commCheck.2 = none)
    (h2 : scrapeBuiltPoints cfg env ts = []) :
    scrape cfg env writeErr ts =
      { numPoints := 0, clientInvalidated := false
        calls := [Call.commCheck, Call.production, Call.inverters,
                  Call.batteries] }
    ∧ ∀ b, Call.write b ∉ (scrape cfg env writeErr ts).calls := by
  have he : scrape cfg env writeErr ts =
      { numPoints := 0, clientInvalidated := false
        calls := [Call.commCheck, Call.production, Call.inverters,
                  Call.batteries] } := by
    unfold scrape
    rw [h1]
    simp [h2]
  refine ⟨he, ?_⟩
  rw [he]
  intro b
  simp

/-- C7 witness: all three categories empty, evaluated concretely. -/
theorem scrape_emptyBatch_witness :
    emptyEnv.commCheck.2 = none
    ∧ scrapeBuiltPoints sampleConfig emptyEnv 0 = []
    ∧ (scrape sampleConfig emptyEnv none 0 =
        { numPoints := 0, clientInvalidated := false
          calls := [Call.commCheck, Call.production, Call.inverters,
                    Call.batteries] }
      ∧ ∀ b, Call.write b ∉ (scrape sampleConfig emptyEnv none 0).calls) :=
  ⟨rfl, rfl, scrape_emptyBatch sampleConfig emptyEnv none 0 rfl rfl⟩

/-- C8: a scrape cycle with a non-empty batch writes it to the sink in
exactly one call, and a failing write changes nothing about the returned
values: the point count still equals the number of points built and the
session is not invalidated. -/
theorem scrape_nonEmptyBatch (cfg : Config) (env : EnvoyEnv)
    (writeErr : Option String) (ts : Nat)
    (h1 : env.commCheck.2 = none)
    (h2 : scrapeBuiltPoints cfg env ts ≠ []) :
    (scrape cfg env writeErr ts).numPoints
      = (scrapeBuiltPoints cfg env ts).length
    ∧ (scrape cfg env writeErr ts).clientInvalidated = false
    ∧ (scrape cfg env writeErr ts).calls.filter Call.isWrite
        = [Call.write (scrapeBuiltPoints cfg env ts)]
    ∧ scrape cfg env writeErr ts = scrape cfg env none ts := by
  have hlen : ¬(scrapeBuiltPoints cfg env ts).length = 0 := by
    simpa using h2
  have he : ∀ w : Option String, scrape cfg env w ts =
      { numPoints := (scrapeBuiltPoints cfg env ts).length
        clientInvalidated := false
        calls := [Call.commCheck, Call.production, Call.inverters,
                  Call.batteries,
                  Call.write (scrapeBuiltPoints cfg env ts)] } := by
    intro w
    unfold scrape
    rw [h1]
    simp [hlen]
  refine ⟨?_, ?_, ?_, ?_⟩
  · rw [he writeErr]
  · rw [he writeErr]
  · rw [he writeErr]
    simp [Call.isWrite]
  · rw [he writeErr, he none]

/-- C8 witness: the three-point success environment with a failing sink
write, evaluated concretely. -/
theorem scrape_nonEmptyBatch_witness :
    sampleEnv.commCheck.2 = none
    ∧ scrapeBuiltPoints sampleConfig sampleEnv 0 ≠ []
    ∧ ((scrape sampleConfig sampleEnv (some "InfluxDB write error") 0).numPoints
        = (scrapeBuiltPoints sampleConfig sampleEnv 0).length
      ∧ (scrape sampleConfig sampleEnv
          (some "InfluxDB write error") 0).clientInvalidated = false
      ∧ (scrape sampleConfig sampleEnv
          (some "InfluxDB write error") 0).calls.filter Call.isWrite
        = [Call.write (scrapeBuiltPoints sampleConfig sampleEnv 0)]
      ∧ scrape sampleConfig sampleEnv (some "InfluxDB write error") 0
        = scrape sampleConfig sampleEnv none 0) :=
  ⟨rfl, by decide,
    scrape_nonEmptyBatch sampleConfig sampleEnv (some "InfluxDB write error")
      0 rfl (by decide)⟩

/-- C9: a line point carries exactly the tags source, measurement-type and
line-idx and exactly the fields P, Q, S, I_rms, V_rms; an inverter point
exactly source, measurement-type, serial and the field P; a battery point
exactly source, measurement-type, serial and the fields percent-full and
temperature. -/
theorem pointBuilders_exact_tags_fields (cfg : Config) (t : String)
    (line : Line) (idx ts : Nat) (prod : ProductionResponse)
    (invs : List Inverter) (bats : List Battery) :
    ((lineToPoint cfg t line idx ts).tagKeys
        = ["source", "measurement-type", "line-idx"]
      ∧ (lineToPoint cfg t line idx ts).fieldKeys
        = ["P", "Q", "S", "I_rms", "V_rms"])
    ∧ (extractProductionStats cfg prod ts).all (fun p =>
        p.tagKeys == ["source", "measurement-type", "line-idx"]
        && p.fieldKeys == ["P", "Q", "S", "I_rms", "V_rms"]) = true
    ∧ (inverterStatsList cfg invs ts).all (fun p =>
        p.tagKeys == ["source", "measurement-type", "serial"]
        && p.fieldKeys == ["P"]) = true
    ∧ (batteryStatsList cfg bats ts).all (fun p =>
        p.tagKeys == ["source", "measurement-type", "serial"]
        && p.fieldKeys == ["percent-full", "temperature"]) = true := by
  refine ⟨⟨rfl, rfl⟩, tags_extractProductionStats cfg prod ts, ?_, ?_⟩
  · rw [List.all_eq_true]
    intro p hp
    simp only [inverterStatsList, List.mem_map] at hp
    obtain ⟨inv, -, rfl⟩ := hp
    rfl
  · rw [List.all_eq_true]
    intro p hp
    simp only [batteryStatsList, List.mem_map] at hp
    obtain ⟨bat, -, rfl⟩ := hp
    rfl

/-- C10: a scrape cycle never returns a positive point count together with
an invalidated session, and its batch is always the production-response
points (in response order), then the inverter points, then the battery
points. -/
theorem scrape_result_invariants (cfg : Config) (env : EnvoyEnv)
    (writeErr : Option String) (ts : Nat) :
    ((scrape cfg env writeErr ts).clientInvalidated = false
      ∨ (scrape cfg env writeErr ts).numPoints = 0)
    ∧ scrapeBuiltPoints cfg env ts
      = scrapeProductionPoints cfg env ts ++ scrapeInverterPoints cfg env ts
        ++ scrapeBatteryPoints cfg env ts
    ∧ (scrapeProductionPoints cfg env ts).all (fun p =>
        p.hasTag "measurement-type" "production"
        || p.hasTag "measurement-type" "consumption"
        || p.hasTag "measurement-type" "net") = true
    ∧ (scrapeInverterPoints cfg env ts).all (fun p =>
        p.hasTag "measurement-type" "inverter") = true
    ∧ (scrapeBatteryPoints cfg env ts).all (fun p =>
        p.hasTag "measurement-type" "battery") = true := by
  refine ⟨?_, rfl, lineCategory_scrapeProductionPoints cfg env ts,
    inverterCategory_scrapeInverterPoints cfg env ts,
    batteryCategory_scrapeBatteryPoints cfg env ts⟩
  unfold scrape
  by_cases hc : (env.commCheck.2).isSome
  · rw [if_pos hc]
    right
    rfl
  · rw [if_neg hc]
    dsimp only
    split
    · left
      rfl
    · left
      rfl

end EnvoyExporter
